import Mathlib

/-
  Verification of the RecTransport ride-booking backend (src/backend/main.py)
  against its natural-language specification.

  The source is a FastAPI application over a document store (Beanie / MongoDB).
  We shallow-embed the route handlers as pure Lean functions over an explicit
  database state (lists of documents).  Document ids are strings, timestamps
  are naturals (an abstract clock value passed to each handler as its notion
  of datetime.utcnow), float-typed fields (ratings, distances, coordinates,
  fuel amounts) are rationals, and fallible handlers return Except HTTPError.
  Mongo find / find_one calls become List.filter / List.find? over the
  corresponding collection; a handler that inserts a document returns the
  updated database next to its response.

  The models module (models.py) and the auth module (auth.py) are imported by
  main.py but are not part of the sources available here; where their
  behaviour decides a property we model it from the spec (Ride model field
  defaults) or keep it abstract (password hashing and verification are
  arbitrary function parameters of the embedded handlers).
-/

namespace RecTransport

/-- Ride lifecycle status enum (RideStatus in the models module): the closed
set requested / assigned / in_progress / completed described in the spec. -/
inductive RideStatus
  | requested
  | assigned
  | in_progress
  | completed
deriving DecidableEq, Repr

/-- Calendar date (day, month, year) as produced by datetime.strptime. -/
structure Date where
  day : Nat
  month : Nat
  year : Nat
deriving DecidableEq, Repr

/-- Python request-body value: handlers receive ad-hoc dicts whose values are
strings or numbers.  Only these two shapes are exercised by the endpoints we
embed. -/
inductive PyVal
  | str (s : String)
  | int (n : Int)
deriving DecidableEq, Repr

/-- Python truthiness of a request value: empty string and zero are falsy,
mirroring how the source's required-field checks treat values. -/
def PyVal.truthy : PyVal → Bool
  | .str s => !(s = "")
  | .int n => !(n = 0)

/-- Truthiness of an optional dict entry: dict.get of an absent key gives
None, which is falsy. -/
def optTruthy : Option PyVal → Bool
  | none => false
  | some v => v.truthy

/-- User document: name, email, phone, role, password hash, avatar, active
flag, creation timestamp.  The ad-hoc creation endpoints pass possibly-absent
dict entries straight into the model, so the plain-data fields are optional. -/
structure User where
  id : String
  name : Option String
  email : Option String
  phone : Option String
  role : Option String
  password_hash : String
  avatar : Option String
  is_active : Bool
  created_at : Option Nat
deriving DecidableEq, Repr

/-- Driver document: references a User by user_id, carries vehicle attributes,
license data, rating, ride count, odometer reading and online flag. -/
structure Driver where
  id : String
  user_id : String
  vehicle_make : Option String
  vehicle_model : Option String
  vehicle_year : Option Int
  license_plate : Option String
  vehicle_color : Option String
  license_number : Option String
  license_expiry : Option Date
  rating : Rat
  total_rides : Nat
  current_km_reading : Rat
  is_online : Bool
  created_at : Option Nat
  updated_at : Option Nat
deriving DecidableEq, Repr

/-- Passenger document: references a User by user_id, with rating and ride
count. -/
structure Passenger where
  id : String
  user_id : String
  rating : Rat
  total_rides : Nat
deriving DecidableEq, Repr

/-- License expiry as stored on a standalone Vehicle: the handler parses a
string body value to a date and passes any non-string value through
unchanged. -/
inductive ExpiryVal
  | date (d : Date)
  | raw (v : PyVal)
deriving DecidableEq, Repr

/-- Standalone Vehicle document created by POST /vehicles.  The handler copies
the request-dict values into the model (vehicle_year through int(), the
expiry through date parsing), so the copied fields keep their request-value
type here. -/
structure Vehicle where
  id : String
  vehicle_make : PyVal
  vehicle_model : PyVal
  vehicle_year : Int
  license_plate : PyVal
  vehicle_color : PyVal
  license_number : PyVal
  license_expiry : ExpiryVal
  created_at : Option Nat
  updated_at : Option Nat
deriving DecidableEq, Repr

/-- Ride document: passenger id, optional driver id, status, pickup/dropoff
coordinates and addresses, one timestamp per lifecycle transition, distance
and odometer readings. -/
structure Ride where
  id : String
  passenger_id : Option String
  driver_id : Option String
  status : RideStatus
  pickup_latitude : Option Rat
  pickup_longitude : Option Rat
  pickup_address : Option String
  dropoff_latitude : Option Rat
  dropoff_longitude : Option Rat
  dropoff_address : Option String
  requested_at : Option Nat
  assigned_at : Option Nat
  picked_up_at : Option Nat
  completed_at : Option Nat
  distance : Option Rat
  start_km : Option Rat
  end_km : Option Rat
deriving DecidableEq, Repr

/-- FuelEntry document: driver id, fuel amount/cost/type, odometer reading,
station and date. -/
structure FuelEntry where
  id : String
  driver_id : String
  fuel_amount : Rat
  fuel_cost : Rat
  fuel_type : String
  odometer_reading : Rat
  fuel_station : String
  date : Option Nat
  created_at : Option Nat
deriving DecidableEq, Repr

/-- The document store: one list per collection used by the embedded
endpoints. -/
structure DB where
  users : List User
  drivers : List Driver
  passengers : List Passenger
  vehicles : List Vehicle
  rides : List Ride
  fuel_entries : List FuelEntry
deriving DecidableEq, Repr

/-- An HTTPException raised by a handler: status code and detail message. -/
structure HTTPError where
  status_code : Nat
  detail : String
deriving DecidableEq, Repr

/-- Request body of POST /rides: the handler reads exactly these keys from the
dict. -/
structure RideData where
  passenger_id : Option String
  pickup_latitude : Option Rat
  pickup_longitude : Option Rat
  pickup_address : Option String
  dropoff_latitude : Option Rat
  dropoff_longitude : Option Rat
  dropoff_address : Option String
deriving DecidableEq, Repr

/-- POST /rides handler (create_ride in main.py).  The handler constructs
Ride(passenger_id=..., pickup/dropoff fields..., status=RideStatus.REQUESTED)
and inserts it.  Modelled from the spec: the Ride model itself lives in the
models module, which is not among the available sources; per the spec a
ride's requested_at is always set on creation (the model default stamps the
current time) and the driver id and the later lifecycle timestamps are unset
until the corresponding transition endpoints populate them, so the fields
create_ride does not pass default to the current clock for requested_at and
to none for driver_id, assigned_at, picked_up_at, completed_at, distance and
the odometer readings. -/
def create_ride (db : DB) (freshId : String) (now : Nat) (rd : RideData) :
    Ride × DB :=
  let new_ride : Ride :=
    { id := freshId
      passenger_id := rd.passenger_id
      driver_id := none
      status := RideStatus.requested
      pickup_latitude := rd.pickup_latitude
      pickup_longitude := rd.pickup_longitude
      pickup_address := rd.pickup_address
      dropoff_latitude := rd.dropoff_latitude
      dropoff_longitude := rd.dropoff_longitude
      dropoff_address := rd.dropoff_address
      requested_at := some now
      assigned_at := none
      picked_up_at := none
      completed_at := none
      distance := none
      start_km := none
      end_km := none }
  (new_ride, { db with rides := db.rides ++ [new_ride] })

/-- Response of a successful POST /auth/login: the handler returns the token,
the literal token type "bearer", and the matched User document itself. -/
structure LoginResponse where
  access_token : String
  token_type : String
  user : User
deriving DecidableEq, Repr

/-- POST /auth/login handler (login in main.py).  find_one on the users
collection by the supplied email; 401 when no user matches; 401 when the
password does not verify against the stored hash; otherwise a token created
over the user's email together with the user document.  verify models
auth.verify_password and mkToken models auth.create_access_token (the auth
module is not among the available sources), both kept as arbitrary function
parameters: the handler only branches on the boolean verify returns. -/
def login (verify : Option String → String → Bool)
    (mkToken : Option String → String) (db : DB)
    (email pw : Option String) : Except HTTPError LoginResponse :=
  match db.users.find? (fun u => decide (u.email = email)) with
  | none => .error { status_code := 401, detail := "Incorrect email or password" }
  | some user =>
    if verify pw user.password_hash then
      .ok { access_token := mkToken user.email
            token_type := "bearer"
            user := user }
    else
      .error { status_code := 401, detail := "Incorrect email or password" }

/-- Request body of POST /users: the handler reads name, email, phone and
role; any password key a client supplies is never read (the stored hash is
always the hash of the fixed string "password"). -/
structure UserData where
  name : Option String
  email : Option String
  phone : Option String
  role : Option String
  password : Option String
deriving DecidableEq, Repr

/-- Nested user object of the POST /drivers and POST /passengers bodies: the
handlers read name, email and phone from it; a supplied password is never
read. -/
structure SubUserData where
  name : Option String
  email : Option String
  phone : Option String
  password : Option String
deriving DecidableEq, Repr

/-- Request body of POST /drivers. -/
structure DriverData where
  user : SubUserData
  license_number : Option String
  license_expiry : Option Date
  rating : Option Rat
  total_rides : Option Nat
  current_km_reading : Option Rat
deriving DecidableEq, Repr

/-- Request body of POST /passengers. -/
structure PassengerData where
  user : SubUserData
  rating : Option Rat
  total_rides : Option Nat
deriving DecidableEq, Repr

/-- POST /users handler (create_user in main.py).  400 when a stored user
already has the supplied email, leaving the store unchanged; otherwise a new
User is inserted with password_hash = hashFn "password" (the literal default
password of the source) and returned whole.  hashFn models
auth.get_password_hash and is an arbitrary function parameter. -/
def create_user (hashFn : String → String) (db : DB) (freshId : String)
    (now : Nat) (user_data : UserData) :
    Except HTTPError User × DB :=
  match db.users.find? (fun u => decide (u.email = user_data.email)) with
  | some _ =>
    (.error { status_code := 400, detail := "User with this email already exists" }, db)
  | none =>
    let new_user : User :=
      { id := freshId
        name := user_data.name
        email := user_data.email
        phone := user_data.phone
        role := user_data.role
        password_hash := hashFn "password"
        avatar := none
        is_active := true
        created_at := some now }
    (.ok new_user, { db with users := db.users ++ [new_user] })

/-- POST /drivers handler (create_driver in main.py).  400 on a duplicate
email (taken from the nested user object), leaving the store unchanged;
otherwise a User with role "driver" and the default password hash is
inserted, then a Driver profile without vehicle info is created through
Driver.create_driver and returned.  Modelled from the spec for the
Driver.create_driver constructor (models module not among the sources): it
stores the passed license data, rating (default 5.0), ride count (default 0)
and odometer reading (default 0) with no vehicle attributes. -/
def create_driver (hashFn : String → String) (db : DB)
    (freshUserId freshDriverId : String) (now : Nat)
    (driver_data : DriverData) : Except HTTPError Driver × DB :=
  match db.users.find? (fun u => decide (u.email = driver_data.user.email)) with
  | some _ =>
    (.error { status_code := 400, detail := "User with this email already exists" }, db)
  | none =>
    let new_user : User :=
      { id := freshUserId
        name := driver_data.user.name
        email := driver_data.user.email
        phone := driver_data.user.phone
        role := some "driver"
        password_hash := hashFn "password"
        avatar := none
        is_active := true
        created_at := some now }
    let driver_profile : Driver :=
      { id := freshDriverId
        user_id := new_user.id
        vehicle_make := none
        vehicle_model := none
        vehicle_year := none
        license_plate := none
        vehicle_color := none
        license_number := driver_data.license_number
        license_expiry := driver_data.license_expiry
        rating := driver_data.rating.getD 5
        total_rides := driver_data.total_rides.getD 0
        current_km_reading := driver_data.current_km_reading.getD 0
        is_online := false
        created_at := some now
        updated_at := some now }
    (.ok driver_profile,
     { db with
        users := db.users ++ [new_user]
        drivers := db.drivers ++ [driver_profile] })

/-- POST /passengers handler (create_passenger in main.py).  400 on a
duplicate email from the nested user object, leaving the store unchanged;
otherwise a User with role "passenger" and the default password hash is
inserted, then a Passenger profile with rating default 5.0 and ride count
default 0 is inserted and returned. -/
def create_passenger (hashFn : String → String) (db : DB)
    (freshUserId freshPassengerId : String) (now : Nat)
    (passenger_data : PassengerData) : Except HTTPError Passenger × DB :=
  match db.users.find? (fun u => decide (u.email = passenger_data.user.email)) with
  | some _ =>
    (.error { status_code := 400, detail := "User with this email already exists" }, db)
  | none =>
    let new_user : User :=
      { id := freshUserId
        name := passenger_data.user.name
        email := passenger_data.user.email
        phone := passenger_data.user.phone
        role := some "passenger"
        password_hash := hashFn "password"
        avatar := none
        is_active := true
        created_at := some now }
    let passenger_profile : Passenger :=
      { id := freshPassengerId
        user_id := new_user.id
        rating := passenger_data.rating.getD 5
        total_rides := passenger_data.total_rides.getD 0 }
    (.ok passenger_profile,
     { db with
        users := db.users ++ [new_user]
        passengers := db.passengers ++ [passenger_profile] })

/-- Request body of POST /vehicles: the seven keys the handler validates and
copies; each is an optional request value (absent key = none). -/
structure VehicleData where
  vehicle_make : Option PyVal
  vehicle_model : Option PyVal
  vehicle_year : Option PyVal
  license_plate : Option PyVal
  vehicle_color : Option PyVal
  license_number : Option PyVal
  license_expiry : Option PyVal
deriving DecidableEq, Repr

/-- Dict access vehicle_data.get(field) for the seven validated field
names. -/
def vdField (d : VehicleData) : String → Option PyVal
  | "vehicle_make" => d.vehicle_make
  | "vehicle_model" => d.vehicle_model
  | "vehicle_year" => d.vehicle_year
  | "license_plate" => d.license_plate
  | "vehicle_color" => d.vehicle_color
  | "license_number" => d.license_number
  | "license_expiry" => d.license_expiry
  | _ => none

/-- The required_fields list of create_vehicle, in source order. -/
def requiredFields : List String :=
  ["vehicle_make", "vehicle_model", "vehicle_year", "license_plate",
   "vehicle_color", "license_number", "license_expiry"]

/-- The first required field whose value is absent or falsy: the source loops
over required_fields in order and raises 400 at the first failure. -/
def firstMissingField (d : VehicleData) : Option String :=
  requiredFields.find? (fun f => !(optTruthy (vdField d f)))

/-- Numeric value of a list of decimal digit characters. -/
def digitsToNat (cs : List Char) : Nat :=
  cs.foldl (fun a c => a * 10 + (c.toNat - Char.toNat '0')) 0

/-- Splitting a character list at every hyphen (the literal separators of the
"%d-%m-%Y" format); agrees with String.splitOn "-" on the string's
characters. -/
def splitDash : List Char → List Char → List (List Char)
  | [], acc => [acc.reverse]
  | c :: cs, acc =>
    if c = '-' then acc.reverse :: splitDash cs []
    else splitDash cs (c :: acc)

/-- One day or month component of strptime's "%d-%m-%Y": CPython compiles %d
to the pattern 3[01]|[12]\d|0[1-9]|[1-9] and %m to 1[0-2]|0[1-9]|[1-9], i.e.
one or two digit characters whose value lies in 1..31 resp. 1..12 (a leading
zero is allowed, "00" is not). -/
def parseField2 (cs : List Char) (hi : Nat) : Option Nat :=
  if (1 ≤ cs.length && cs.length ≤ 2) && cs.all Char.isDigit then
    let v := digitsToNat cs
    if 1 ≤ v && v ≤ hi then some v else none
  else none

/-- The year component of strptime's "%d-%m-%Y": CPython compiles %Y to
exactly four digit characters. -/
def parseYear4 (cs : List Char) : Option Nat :=
  if cs.length = 4 && cs.all Char.isDigit then some (digitsToNat cs) else none

/-- Gregorian leap-year rule used by datetime. -/
def isLeapYear (y : Nat) : Bool :=
  y % 4 = 0 && (!(y % 100 = 0) || y % 400 = 0)

/-- Days in a month as validated by the datetime constructor. -/
def daysInMonth (m y : Nat) : Nat :=
  if m = 2 then (if isLeapYear y then 29 else 28)
  else if m = 4 || m = 6 || m = 9 || m = 11 then 30
  else 31

/-- datetime.strptime(s, "%d-%m-%Y"): the compiled pattern is the %d
component, a literal hyphen, the %m component, a literal hyphen and the %Y
component, and the match must span the whole input; since the components
match only digits this is equivalent to splitting on the hyphens and matching
each of the three parts exactly.  The datetime constructor then rejects
year 0 (MINYEAR is 1) and a day beyond the month's length.  Failure raises,
which the handler turns into a 400. -/
def strptimeDMY (s : String) : Option Date :=
  match splitDash s.toList [] with
  | [ds, ms, ys] =>
    match parseField2 ds 31, parseField2 ms 12, parseYear4 ys with
    | some d, some m, some y =>
      if 1 ≤ y && d ≤ daysInMonth m y then some { day := d, month := m, year := y }
      else none
    | _, _, _ => none
  | _ => none

/-- Python int() applied to a request value: an int passes through, a string
is parsed as an optionally signed decimal numeral (whitespace-trimmed);
anything else raises, which create_vehicle's try block turns into a 500. -/
def pyInt : PyVal → Option Int
  | .int n => some n
  | .str s =>
    let t := s.trim.toList
    match t with
    | '-' :: ds => if ds ≠ [] && ds.all Char.isDigit then some (-(digitsToNat ds : Int)) else none
    | '+' :: ds => if ds ≠ [] && ds.all Char.isDigit then some ((digitsToNat ds : Int)) else none
    | ds => if ds ≠ [] && ds.all Char.isDigit then some ((digitsToNat ds : Int)) else none

/-- POST /vehicles handler (create_vehicle in main.py).  In source order: 400
naming the first required field that is absent or falsy; then, when the
expiry value is a string, strptime "%d-%m-%Y" with failure mapped to 400
(a non-string expiry passes through unchanged); then the Vehicle is built
(vehicle_year through int(), whose failure the try block maps to 500) and
inserted.  The final wildcard arm models the KeyError a direct dict index
would raise on an absent key; it is unreachable once the required-field check
has passed. -/
def create_vehicle (db : DB) (freshId : String) (now : Nat)
    (vehicle_data : VehicleData) : Except HTTPError Vehicle × DB :=
  match firstMissingField vehicle_data with
  | some f =>
    (.error { status_code := 400, detail := "Missing required field: " ++ f }, db)
  | none =>
    match vehicle_data.vehicle_make, vehicle_data.vehicle_model,
          vehicle_data.vehicle_year, vehicle_data.license_plate,
          vehicle_data.vehicle_color, vehicle_data.license_number,
          vehicle_data.license_expiry with
    | some mk, some md, some vy, some lp, some vc, some ln, some le =>
      let expiry : Except HTTPError ExpiryVal :=
        match le with
        | .str s =>
          match strptimeDMY s with
          | some dt => .ok (.date dt)
          | none =>
            .error { status_code := 400
                     detail := "license_expiry must be in DD-MM-YYYY format" }
        | v => .ok (.raw v)
      match expiry with
      | .error e => (.error e, db)
      | .ok exp =>
        match pyInt vy with
        | none =>
          (.error { status_code := 500, detail := "Failed to create vehicle" }, db)
        | some yr =>
          let vehicle : Vehicle :=
            { id := freshId
              vehicle_make := mk
              vehicle_model := md
              vehicle_year := yr
              license_plate := lp
              vehicle_color := vc
              license_number := ln
              license_expiry := exp
              created_at := some now
              updated_at := some now }
          (.ok vehicle, { db with vehicles := db.vehicles ++ [vehicle] })
    | _, _, _, _, _, _, _ =>
      (.error { status_code := 500, detail := "Failed to create vehicle" }, db)

/-- Nested user object of an assigned-ride response.  The dict is only
constructed when the passenger's user document was found, so its fields come
straight from that document. -/
structure UserResponse where
  id : String
  name : Option String
  email : Option String
  phone : Option String
  role : Option String
  avatar : Option String
  created_at : Option Nat
  is_active : Bool
deriving DecidableEq, Repr

/-- Nested passenger object of an assigned-ride response; built only when the
passenger document was found, its user key null when the referenced user is
missing. -/
structure PassengerResponse where
  id : String
  user_id : String
  rating : Rat
  total_rides : Nat
  user : Option UserResponse
deriving DecidableEq, Repr

/-- One element of the GET /rides/assigned response list: the ride's own
fields plus the hydrated passenger object (null when the referenced passenger
document is missing). -/
structure RideResponse where
  id : String
  passenger_id : Option String
  driver_id : Option String
  status : RideStatus
  pickup_latitude : Option Rat
  pickup_longitude : Option Rat
  pickup_address : Option String
  dropoff_latitude : Option Rat
  dropoff_longitude : Option Rat
  dropoff_address : Option String
  requested_at : Option Nat
  assigned_at : Option Nat
  picked_up_at : Option Nat
  completed_at : Option Nat
  distance : Option Rat
  start_km : Option Rat
  end_km : Option Rat
  passenger : Option PassengerResponse
deriving DecidableEq, Repr

/-- Assembly of one assigned-ride response dict: look the ride's passenger id
up among the fetched passenger documents (the source keys a dict by document
id; absent id, including a null passenger_id, yields None), then the
passenger's user among the fetched users, and copy the ride fields. -/
def mkAssignedRideResponse (db : DB) (ride : Ride) : RideResponse :=
  let passenger? :=
    db.passengers.find? (fun p => decide (some p.id = ride.passenger_id))
  let passengerResp : Option PassengerResponse :=
    match passenger? with
    | none => none
    | some p =>
      let user? := db.users.find? (fun u => decide (u.id = p.user_id))
      some
        { id := p.id
          user_id := p.user_id
          rating := p.rating
          total_rides := p.total_rides
          user :=
            match user? with
            | none => none
            | some u =>
              some
                { id := u.id
                  name := u.name
                  email := u.email
                  phone := u.phone
                  role := u.role
                  avatar := u.avatar
                  created_at := u.created_at
                  is_active := u.is_active } }
  { id := ride.id
    passenger_id := ride.passenger_id
    driver_id := ride.driver_id
    status := ride.status
    pickup_latitude := ride.pickup_latitude
    pickup_longitude := ride.pickup_longitude
    pickup_address := ride.pickup_address
    dropoff_latitude := ride.dropoff_latitude
    dropoff_longitude := ride.dropoff_longitude
    dropoff_address := ride.dropoff_address
    requested_at := ride.requested_at
    assigned_at := ride.assigned_at
    picked_up_at := ride.picked_up_at
    completed_at := ride.completed_at
    distance := ride.distance
    start_km := ride.start_km
    end_km := ride.end_km
    passenger := passengerResp }

/-- GET /rides/assigned handler (get_assigned_rides in main.py).  find_one
the Driver whose user_id is the authenticated driver's user id, 404 when none
exists, then fetch the rides whose driver_id equals that driver's id and
whose status is assigned or in_progress, and hydrate each with its passenger
and that passenger's user. -/
def get_assigned_rides (db : DB) (current_user : User) :
    Except HTTPError (List RideResponse) :=
  match db.drivers.find? (fun d => decide (d.user_id = current_user.id)) with
  | none => .error { status_code := 404, detail := "Driver profile not found" }
  | some driver =>
    let rides := db.rides.filter (fun r =>
      decide (r.driver_id = some driver.id) &&
      (decide (r.status = RideStatus.assigned) ||
       decide (r.status = RideStatus.in_progress)))
    .ok (rides.map (mkAssignedRideResponse db))

/-- One element of the GET /fuel-entries response: the entry's fields plus
the hydrated driver name, vehicle make and plate, each replaced by the string
"Unknown" when the referenced driver (or its user) is missing. -/
structure FuelData where
  id : String
  driver_id : String
  driver_name : Option String
  vehicle_make : Option String
  license_plate : Option String
  fuel_amount : Rat
  fuel_cost : Rat
  fuel_type : String
  odometer_reading : Rat
  fuel_station : String
  date : Option Nat
  created_at : Option Nat
deriving DecidableEq, Repr

/-- Body of the GET /fuel-entries response: a status marker and the hydrated
entries. -/
structure FuelListResponse where
  status : String
  fuel_entries : List FuelData
deriving DecidableEq, Repr

/-- Loop body of the GET /fuel-entries handler: Driver.get on the entry's
driver_id; when a driver is found, User.get on the driver's user_id; the
rendered name, make and plate fall back to "Unknown" when the respective
document is missing. -/
def mkFuelData (db : DB) (entry : FuelEntry) : FuelData :=
  let driver? := db.drivers.find? (fun d => decide (d.id = entry.driver_id))
  let user? : Option User :=
    match driver? with
    | some driver => db.users.find? (fun u => decide (u.id = driver.user_id))
    | none => none
  { id := entry.id
    driver_id := entry.driver_id
    driver_name :=
      match user? with
      | some u => u.name
      | none => some "Unknown"
    vehicle_make :=
      match driver? with
      | some d => d.vehicle_make
      | none => some "Unknown"
    license_plate :=
      match driver? with
      | some d => d.license_plate
      | none => some "Unknown"
    fuel_amount := entry.fuel_amount
    fuel_cost := entry.fuel_cost
    fuel_type := entry.fuel_type
    odometer_reading := entry.odometer_reading
    fuel_station := entry.fuel_station
    date := entry.date
    created_at := entry.created_at }

/-- GET /fuel-entries handler (get_fuel_entries in main.py).  Hydrates every
entry through mkFuelData; every lookup failure is tolerated, so the handler
always returns the success-status body. -/
def get_fuel_entries (db : DB) : FuelListResponse :=
  { status := "success"
    fuel_entries := db.fuel_entries.map (mkFuelData db) }

/-- Per-user summary dict of the /debug/data payload. -/
structure DebugUserSummary where
  id : String
  name : Option String
  email : Option String
  role : Option String
deriving DecidableEq, Repr

/-- Per-driver summary dict of the /debug/data payload. -/
structure DebugDriverSummary where
  id : String
  user_id : String
  vehicle_make : Option String
  license_plate : Option String
deriving DecidableEq, Repr

/-- Per-passenger summary dict of the /debug/data payload. -/
structure DebugPassengerSummary where
  id : String
  user_id : String
deriving DecidableEq, Repr

/-- Per-vehicle summary dict of the /debug/data payload. -/
structure DebugVehicleSummary where
  id : String
  vehicle_make : PyVal
  license_plate : PyVal
deriving DecidableEq, Repr

/-- The data object of a successful /debug/data response: collection counts
and per-document summaries. -/
structure DebugDataPayload where
  users_count : Nat
  drivers_count : Nat
  passengers_count : Nat
  vehicles_count : Nat
  users : List DebugUserSummary
  drivers : List DebugDriverSummary
  passengers : List DebugPassengerSummary
  vehicles : List DebugVehicleSummary
deriving DecidableEq, Repr

/-- Body of a /debug/data response: always delivered with HTTP status 200 (in
FastAPI a handler that returns a plain dict and raises no HTTPException
responds 200); on an exception the body is the error marker and the
exception's message, with no data key. -/
structure DebugDataResponse where
  status : String
  message : Option String
  data : Option DebugDataPayload
deriving DecidableEq, Repr

/-- GET /debug/data handler (debug_data in main.py).  The whole body of the
handler sits in a try block; the except arm returns a normal body with
status "error" and the exception message, so no exception escapes as an HTTP
error.  The fetch parameter models the awaited find_all calls, which are the
only possible exception source in the block. -/
def debug_data
    (fetch : Except String (List User × List Driver × List Passenger × List Vehicle)) :
    DebugDataResponse :=
  match fetch with
  | .error e => { status := "error", message := some e, data := none }
  | .ok (us, ds, ps, vs) =>
    { status := "success"
      message := none
      data := some
        { users_count := us.length
          drivers_count := ds.length
          passengers_count := ps.length
          vehicles_count := vs.length
          users := us.map (fun (u : User) =>
            { id := u.id, name := u.name, email := u.email, role := u.role })
          drivers := ds.map (fun (d : Driver) =>
            { id := d.id, user_id := d.user_id,
              vehicle_make := d.vehicle_make, license_plate := d.license_plate })
          passengers := ps.map (fun (p : Passenger) =>
            { id := p.id, user_id := p.user_id })
          vehicles := vs.map (fun (v : Vehicle) =>
            { id := v.id, vehicle_make := v.vehicle_make,
              license_plate := v.license_plate }) } }

/-- Per-ride dict of the /debug/rides payload. -/
structure DebugRideData where
  id : String
  passenger_id : Option String
  driver_id : Option String
  status : RideStatus
  pickup_address : Option String
  dropoff_address : Option String
  requested_at : Option Nat
  assigned_at : Option Nat
  picked_up_at : Option Nat
  completed_at : Option Nat
  distance : Option Rat
  start_km : Option Rat
  end_km : Option Rat
deriving DecidableEq, Repr

/-- Body of a /debug/rides response: always delivered with HTTP status 200;
on an exception the body is the error marker and the message, with no rides
key. -/
structure DebugRidesResponse where
  status : String
  message : Option String
  rides : Option (List DebugRideData)
deriving DecidableEq, Repr

/-- GET /debug/rides handler (debug_rides in main.py): same try/except shape
as debug_data, rendering every ride's fields on success. -/
def debug_rides (fetch : Except String (List Ride)) : DebugRidesResponse :=
  match fetch with
  | .error e => { status := "error", message := some e, rides := none }
  | .ok rs =>
    { status := "success"
      message := none
      rides := some (rs.map (fun r =>
        { id := r.id
          passenger_id := r.passenger_id
          driver_id := r.driver_id
          status := r.status
          pickup_address := r.pickup_address
          dropoff_address := r.dropoff_address
          requested_at := r.requested_at
          assigned_at := r.assigned_at
          picked_up_at := r.picked_up_at
          completed_at := r.completed_at
          distance := r.distance
          start_km := r.start_km
          end_km := r.end_km })) }

/-- Per-user dict of the /debug/users payload. -/
structure DebugUserItem where
  id : String
  name : Option String
  email : Option String
  phone : Option String
  role : Option String
  created_at : Option Nat
deriving DecidableEq, Repr

/-- Body of a /debug/users response: always delivered with HTTP status 200;
on an exception the body is the error marker and the message, with no users
key. -/
structure DebugUsersResponse where
  status : String
  message : Option String
  users : Option (List DebugUserItem)
deriving DecidableEq, Repr

/-- GET /debug/users handler (debug_users in main.py): same try/except shape
as debug_data, rendering id, name, email, phone, role and creation time of
every user on success. -/
def debug_users (fetch : Except String (List User)) : DebugUsersResponse :=
  match fetch with
  | .error e => { status := "error", message := some e, users := none }
  | .ok us =>
    { status := "success"
      message := none
      users := some (us.map (fun (u : User) =>
        { id := u.id, name := u.name, email := u.email, phone := u.phone
          role := u.role, created_at := u.created_at })) }

/-- Per-user dict of the /debug/users-simple payload (no creation time). -/
structure DebugUserSimpleItem where
  id : String
  name : Option String
  email : Option String
  phone : Option String
  role : Option String
deriving DecidableEq, Repr

/-- Body of a /debug/users-simple response: always delivered with HTTP status
200; on an exception the body is the error marker and the message. -/
structure DebugUsersSimpleResponse where
  status : String
  message : Option String
  users : Option (List DebugUserSimpleItem)
deriving DecidableEq, Repr

/-- GET /debug/users-simple handler (debug_users_simple in main.py): same
try/except shape, rendering id, name, email, phone and role of every user on
success. -/
def debug_users_simple (fetch : Except String (List User)) :
    DebugUsersSimpleResponse :=
  match fetch with
  | .error e => { status := "error", message := some e, users := none }
  | .ok us =>
    { status := "success"
      message := none
      users := some (us.map (fun (u : User) =>
        { id := u.id, name := u.name, email := u.email, phone := u.phone
          role := u.role })) }

/-- Per-driver dict of the /debug/drivers payload: the driver's fields plus
its user's name, email and phone, each falling back to "Unknown" when the
referenced user document is missing. -/
structure DebugDriverItem where
  id : String
  user_id : String
  user_name : Option String
  user_email : Option String
  user_phone : Option String
  vehicle_make : Option String
  vehicle_model : Option String
  vehicle_year : Option Int
  license_plate : Option String
  vehicle_color : Option String
  license_number : Option String
  license_expiry : Option Date
  rating : Rat
  total_rides : Nat
  current_km_reading : Rat
  is_online : Bool
  created_at : Option Nat
  updated_at : Option Nat
deriving DecidableEq, Repr

/-- Loop body of the /debug/drivers handler: User.get on the driver's
user_id, with "Unknown" fallbacks for the user fields. -/
def mkDebugDriverData (db : DB) (driver : Driver) : DebugDriverItem :=
  let user? := db.users.find? (fun u => decide (u.id = driver.user_id))
  { id := driver.id
    user_id := driver.user_id
    user_name :=
      match user? with
      | some u => u.name
      | none => some "Unknown"
    user_email :=
      match user? with
      | some u => u.email
      | none => some "Unknown"
    user_phone :=
      match user? with
      | some u => u.phone
      | none => some "Unknown"
    vehicle_make := driver.vehicle_make
    vehicle_model := driver.vehicle_model
    vehicle_year := driver.vehicle_year
    license_plate := driver.license_plate
    vehicle_color := driver.vehicle_color
    license_number := driver.license_number
    license_expiry := driver.license_expiry
    rating := driver.rating
    total_rides := driver.total_rides
    current_km_reading := driver.current_km_reading
    is_online := driver.is_online
    created_at := driver.created_at
    updated_at := driver.updated_at }

/-- Body of a /debug/drivers response: always delivered with HTTP status 200;
on an exception the body is the error marker and the message. -/
structure DebugDriversResponse where
  status : String
  message : Option String
  drivers : Option (List DebugDriverItem)
deriving DecidableEq, Repr

/-- GET /debug/drivers handler (debug_drivers in main.py): the whole body
sits in a try block whose except arm returns the error body; each driver is
hydrated with its user through mkDebugDriverData (the per-driver inner
try/continue never fires in the embedding, where lookups are total). -/
def debug_drivers (fetch : Except String DB) : DebugDriversResponse :=
  match fetch with
  | .error e => { status := "error", message := some e, drivers := none }
  | .ok db =>
    { status := "success"
      message := none
      drivers := some (db.drivers.map (mkDebugDriverData db)) }

/-- Python truthiness of an optional string field, as used by the guard that
selects drivers carrying full vehicle info: None and the empty string are
falsy. -/
def optStrTruthy : Option String → Bool
  | none => false
  | some s => !(s = "")

/-- Dict rendered for a standalone Vehicle document by the /debug/vehicles
handler. -/
structure DebugVehicleDirectItem where
  id : String
  vehicle_make : PyVal
  vehicle_model : PyVal
  vehicle_year : Int
  license_plate : PyVal
  vehicle_color : PyVal
  license_number : PyVal
  license_expiry : Option ExpiryVal
  created_at : Option Nat
  updated_at : Option Nat
deriving DecidableEq, Repr

/-- Dict rendered for a driver-attached vehicle by the /debug/vehicles
handler: id prefixed with "driver_", the driver's name falling back to
"Unknown" when the referenced user document is missing. -/
structure DebugVehicleDriverItem where
  id : String
  driver_id : String
  driver_name : Option String
  vehicle_make : Option String
  vehicle_model : Option String
  vehicle_year : Option Int
  license_plate : Option String
  vehicle_color : Option String
  license_number : Option String
  license_expiry : Option Date
  created_at : Option Nat
  updated_at : Option Nat
deriving DecidableEq, Repr

/-- One element of the /debug/vehicles listing: either a standalone vehicle
document or a vehicle read off a driver profile. -/
inductive DebugVehicleItem
  | direct (v : DebugVehicleDirectItem)
  | fromDriver (v : DebugVehicleDriverItem)
deriving DecidableEq, Repr

/-- Body of a /debug/vehicles response: always delivered with HTTP status
200; on an exception the body is the error marker and the message. -/
structure DebugVehiclesResponse where
  status : String
  message : Option String
  vehicles : Option (List DebugVehicleItem)
deriving DecidableEq, Repr

/-- GET /debug/vehicles handler (debug_vehicles in main.py): renders every
standalone Vehicle document, then appends one entry per driver whose
vehicle_make, vehicle_model, license_plate and vehicle_color are all truthy,
hydrating the driver's user name with an "Unknown" fallback; the outer
try/except returns the error body on an exception. -/
def debug_vehicles (fetch : Except String DB) : DebugVehiclesResponse :=
  match fetch with
  | .error e => { status := "error", message := some e, vehicles := none }
  | .ok db =>
    let directItems : List DebugVehicleItem :=
      db.vehicles.map (fun (v : Vehicle) =>
        .direct
          { id := v.id
            vehicle_make := v.vehicle_make
            vehicle_model := v.vehicle_model
            vehicle_year := v.vehicle_year
            license_plate := v.license_plate
            vehicle_color := v.vehicle_color
            license_number := v.license_number
            license_expiry := some v.license_expiry
            created_at := v.created_at
            updated_at := v.updated_at })
    let driverItems : List DebugVehicleItem :=
      (db.drivers.filter (fun d =>
        optStrTruthy d.vehicle_make && optStrTruthy d.vehicle_model &&
        optStrTruthy d.license_plate && optStrTruthy d.vehicle_color)).map
        (fun (d : Driver) =>
          let user? := db.users.find? (fun u => decide (u.id = d.user_id))
          .fromDriver
            { id := "driver_" ++ d.id
              driver_id := d.id
              driver_name :=
                match user? with
                | some u => u.name
                | none => some "Unknown"
              vehicle_make := d.vehicle_make
              vehicle_model := d.vehicle_model
              vehicle_year := d.vehicle_year
              license_plate := d.license_plate
              vehicle_color := d.vehicle_color
              license_number := d.license_number
              license_expiry := d.license_expiry
              created_at := d.created_at
              updated_at := d.updated_at })
    { status := "success"
      message := none
      vehicles := some (directItems ++ driverItems) }

/-- Body of a /debug/fuel-entries response: always delivered with HTTP status
200; on an exception the body is the error marker and the message. -/
structure DebugFuelResponse where
  status : String
  message : Option String
  fuel_entries : Option (List FuelData)
deriving DecidableEq, Repr

/-- GET /debug/fuel-entries handler (debug_fuel_entries in main.py): its loop
body builds the same per-entry dict as GET /fuel-entries, so the hydration is
shared through mkFuelData; the outer try/except returns the error body on an
exception. -/
def debug_fuel_entries (fetch : Except String DB) : DebugFuelResponse :=
  match fetch with
  | .error e => { status := "error", message := some e, fuel_entries := none }
  | .ok db =>
    { status := "success"
      message := none
      fuel_entries := some (db.fuel_entries.map (mkFuelData db)) }

/-- Nested driver object of a /debug/rides-with-details ride: built only when
the ride's driver document was found, its user key null when the referenced
user is missing. -/
structure DebugDriverNested where
  id : String
  user_id : String
  vehicle_make : Option String
  vehicle_model : Option String
  license_plate : Option String
  is_online : Bool
  user : Option UserResponse
deriving DecidableEq, Repr

/-- One element of the /debug/rides-with-details listing: the ride's fields
plus the hydrated passenger and driver objects (null when the referenced
document is missing). -/
structure RideDetailResponse where
  id : String
  passenger_id : Option String
  driver_id : Option String
  status : RideStatus
  pickup_latitude : Option Rat
  pickup_longitude : Option Rat
  pickup_address : Option String
  dropoff_latitude : Option Rat
  dropoff_longitude : Option Rat
  dropoff_address : Option String
  requested_at : Option Nat
  assigned_at : Option Nat
  picked_up_at : Option Nat
  completed_at : Option Nat
  distance : Option Rat
  start_km : Option Rat
  end_km : Option Rat
  passenger : Option PassengerResponse
  driver : Option DebugDriverNested
deriving DecidableEq, Repr

/-- Assembly of one /debug/rides-with-details element: look the ride's
passenger and driver up by document id (a null reference finds nothing),
each of their users by user id, and copy the ride fields. -/
def mkRideDetail (db : DB) (ride : Ride) : RideDetailResponse :=
  let passenger? :=
    db.passengers.find? (fun p => decide (some p.id = ride.passenger_id))
  let driver? :=
    db.drivers.find? (fun d => decide (some d.id = ride.driver_id))
  let passengerResp : Option PassengerResponse :=
    match passenger? with
    | none => none
    | some p =>
      let user? := db.users.find? (fun u => decide (u.id = p.user_id))
      some
        { id := p.id
          user_id := p.user_id
          rating := p.rating
          total_rides := p.total_rides
          user :=
            match user? with
            | none => none
            | some u =>
              some
                { id := u.id
                  name := u.name
                  email := u.email
                  phone := u.phone
                  role := u.role
                  avatar := u.avatar
                  created_at := u.created_at
                  is_active := u.is_active } }
  let driverResp : Option DebugDriverNested :=
    match driver? with
    | none => none
    | some d =>
      let user? := db.users.find? (fun u => decide (u.id = d.user_id))
      some
        { id := d.id
          user_id := d.user_id
          vehicle_make := d.vehicle_make
          vehicle_model := d.vehicle_model
          license_plate := d.license_plate
          is_online := d.is_online
          user :=
            match user? with
            | none => none
            | some u =>
              some
                { id := u.id
                  name := u.name
                  email := u.email
                  phone := u.phone
                  role := u.role
                  avatar := u.avatar
                  created_at := u.created_at
                  is_active := u.is_active } }
  { id := ride.id
    passenger_id := ride.passenger_id
    driver_id := ride.driver_id
    status := ride.status
    pickup_latitude := ride.pickup_latitude
    pickup_longitude := ride.pickup_longitude
    pickup_address := ride.pickup_address
    dropoff_latitude := ride.dropoff_latitude
    dropoff_longitude := ride.dropoff_longitude
    dropoff_address := ride.dropoff_address
    requested_at := ride.requested_at
    assigned_at := ride.assigned_at
    picked_up_at := ride.picked_up_at
    completed_at := ride.completed_at
    distance := ride.distance
    start_km := ride.start_km
    end_km := ride.end_km
    passenger := passengerResp
    driver := driverResp }

/-- Body of a /debug/rides-with-details response: always delivered with HTTP
status 200; the success body carries the hydrated rides and a total count,
the error body carries the message and an empty rides list (this handler's
except arm, unlike the others, includes "rides": []). -/
structure DebugRidesDetailsResponse where
  status : String
  message : Option String
  rides : List RideDetailResponse
  total : Option Nat
deriving DecidableEq, Repr

/-- GET /debug/rides-with-details handler (debug_get_rides_with_details in
main.py): hydrates every ride with passenger, driver and their users; the
except arm returns the error marker, the exception message and an empty
rides list. -/
def debug_get_rides_with_details (fetch : Except String DB) :
    DebugRidesDetailsResponse :=
  match fetch with
  | .error e =>
    { status := "error", message := some e, rides := [], total := none }
  | .ok db =>
    { status := "success"
      message := none
      rides := db.rides.map (mkRideDetail db)
      total := some db.rides.length }

/-- Concrete password hash function for evaluating the embedded handlers on
sample data (the handlers are proved correct for an arbitrary hashFn). -/
def demoHash (s : String) : String := "hashed:" ++ s

/-- Concrete token creator for evaluating the embedded handlers. -/
def demoToken (_sub : Option String) : String := "tok"

/-- Concrete password verifier for evaluating the embedded handlers: accepts
exactly the stored hash string as the password. -/
def demoVerify (pw : Option String) (stored : String) : Bool :=
  decide (pw = some stored)

/-- Sample admin user. -/
def demoUser : User :=
  { id := "u1", name := some "Alice", email := some "alice@example.com"
    phone := some "555", role := some "admin", password_hash := "h1"
    avatar := none, is_active := true, created_at := some 0 }

/-- Sample driver-role user. -/
def demoDriverUser : User :=
  { id := "u2", name := some "Dan", email := some "dan@example.com"
    phone := none, role := some "driver", password_hash := "h2"
    avatar := none, is_active := true, created_at := some 0 }

/-- Sample driver profile belonging to demoDriverUser. -/
def demoDriver : Driver :=
  { id := "d1", user_id := "u2", vehicle_make := some "Toyota"
    vehicle_model := some "Prius", vehicle_year := some 2020
    license_plate := some "KA-01", vehicle_color := some "blue"
    license_number := some "L1", license_expiry := none, rating := 5
    total_rides := 0, current_km_reading := 0, is_online := true
    created_at := some 0, updated_at := some 0 }

/-- Sample assigned ride of demoDriver whose passenger reference dangles (no
passenger document with id "ghost-p" exists). -/
def demoRideAssigned : Ride :=
  { id := "r1", passenger_id := some "ghost-p", driver_id := some "d1"
    status := RideStatus.assigned, pickup_latitude := none
    pickup_longitude := none, pickup_address := some "REC gate"
    dropoff_latitude := none, dropoff_longitude := none
    dropoff_address := some "Station", requested_at := some 1
    assigned_at := some 2, picked_up_at := none, completed_at := none
    distance := none, start_km := none, end_km := none }

/-- Sample fuel entry whose driver reference dangles (no driver document with
id "ghost-d" exists). -/
def demoFuel : FuelEntry :=
  { id := "f1", driver_id := "ghost-d", fuel_amount := 10, fuel_cost := 20
    fuel_type := "petrol", odometer_reading := 100, fuel_station := "Shell"
    date := some 3, created_at := some 3 }

/-- Sample database with the documents above. -/
def demoDB : DB :=
  { users := [demoUser, demoDriverUser], drivers := [demoDriver]
    passengers := [], vehicles := [], rides := [demoRideAssigned]
    fuel_entries := [demoFuel] }

/-- The assigned-ride listing demoDB yields for demoDriverUser. -/
def demoAssignedList : List RideResponse :=
  [mkAssignedRideResponse demoDB demoRideAssigned]

/-- Creation body reusing demoUser's email, with a client-chosen password. -/
def demoUData : UserData :=
  { name := some "A2", email := some "alice@example.com", phone := none
    role := some "admin", password := some "secret" }

/-- Creation body with a fresh email. -/
def demoUDataFresh : UserData :=
  { name := some "Bob", email := some "bob@example.com", phone := none
    role := some "passenger", password := some "secret" }

/-- The user create_user inserts for demoUDataFresh on demoDB with fresh id
"u9" at clock 7. -/
def demoCreatedUser : User :=
  { id := "u9", name := some "Bob", email := some "bob@example.com"
    phone := none, role := some "passenger"
    password_hash := demoHash "password", avatar := none, is_active := true
    created_at := some 7 }

/-- Driver-creation body reusing demoUser's email. -/
def demoDData : DriverData :=
  { user := { name := some "A3", email := some "alice@example.com"
              phone := none, password := some "secret" }
    license_number := some "L9", license_expiry := none, rating := none
    total_rides := none, current_km_reading := none }

/-- Driver-creation body with a fresh email. -/
def demoDDataFresh : DriverData :=
  { user := { name := some "Carl", email := some "carl@example.com"
              phone := none, password := some "secret" }
    license_number := some "L9", license_expiry := none, rating := none
    total_rides := none, current_km_reading := none }

/-- Passenger-creation body reusing demoUser's email. -/
def demoPData : PassengerData :=
  { user := { name := some "A4", email := some "alice@example.com"
              phone := none, password := some "secret" }
    rating := none, total_rides := none }

/-- Passenger-creation body with a fresh email. -/
def demoPDataFresh : PassengerData :=
  { user := { name := some "Dora", email := some "dora@example.com"
              phone := none, password := some "secret" }
    rating := none, total_rides := none }

/-- Vehicle body with all seven required fields present and a well-formed
expiry string. -/
def demoVData : VehicleData :=
  { vehicle_make := some (.str "Tata"), vehicle_model := some (.str "Nexon")
    vehicle_year := some (.int 2022), license_plate := some (.str "TN-09")
    vehicle_color := some (.str "white"), license_number := some (.str "L5")
    license_expiry := some (.str "05-03-2024") }

/-- demoVData with the license plate absent. -/
def demoVDataMissing : VehicleData :=
  { demoVData with license_plate := none }

/-- demoVData with a malformed expiry string. -/
def demoVDataBadExpiry : VehicleData :=
  { demoVData with license_expiry := some (.str "2024-03-05") }

/-- The vehicle create_vehicle inserts for demoVData with fresh id "v1" at
clock 9. -/
def demoVehicle : Vehicle :=
  { id := "v1", vehicle_make := .str "Tata", vehicle_model := .str "Nexon"
    vehicle_year := 2022, license_plate := .str "TN-09"
    vehicle_color := .str "white", license_number := .str "L5"
    license_expiry := .date { day := 5, month := 3, year := 2024 }
    created_at := some 9, updated_at := some 9 }

end RecTransport

namespace RecTransport

/-- Helper: a list whose member satisfies the predicate has a non-none
find?. -/
theorem find?_ne_none_of_mem {α : Type} (p : α → Bool) (l : List α) (a : α)
    (ha : a ∈ l) (hp : p a = true) : l.find? p ≠ none := by
  intro h
  rw [List.find?_eq_none] at h
  exact absurd hp (by simpa using h a ha)

/-- Helper: a truthy optional dict value is present. -/
theorem optTruthy_isSome {o : Option PyVal} (h : optTruthy o = true) :
    ∃ v, o = some v := by
  cases o with
  | none => simp [optTruthy] at h
  | some v => exact ⟨v, rfl⟩

/-- C1: a ride created by POST /rides is returned and stored with status
"requested", a populated requested_at (the creation clock), no driver id, and
unset assigned_at, picked_up_at and completed_at. -/
theorem create_ride_requested_fresh (db : DB) (freshId : String) (now : Nat)
    (rd : RideData) :
    (create_ride db freshId now rd).1.status = RideStatus.requested ∧
    (create_ride db freshId now rd).1.requested_at = some now ∧
    (create_ride db freshId now rd).1.driver_id = none ∧
    (create_ride db freshId now rd).1.assigned_at = none ∧
    (create_ride db freshId now rd).1.picked_up_at = none ∧
    (create_ride db freshId now rd).1.completed_at = none ∧
    (create_ride db freshId now rd).2.rides =
      db.rides ++ [(create_ride db freshId now rd).1] := by
  exact ⟨rfl, rfl, rfl, rfl, rfl, rfl, rfl⟩

/-- C3: POST /auth/login succeeds with access token, token type "bearer" and
the user document when some stored user carries the supplied email and the
password verifies against that user's hash, and fails 401 both when no
stored user carries the email and when verification fails. -/
theorem login_auth_spec (verify : Option String → String → Bool)
    (mkToken : Option String → String) (db : DB) (email pw : Option String) :
    ((∀ u ∈ db.users, u.email ≠ email) →
      login verify mkToken db email pw =
        .error { status_code := 401, detail := "Incorrect email or password" }) ∧
    (∀ u, db.users.find? (fun v => decide (v.email = email)) = some u →
      (verify pw u.password_hash = true →
        login verify mkToken db email pw =
          .ok { access_token := mkToken u.email, token_type := "bearer"
                user := u }) ∧
      (verify pw u.password_hash = false →
        login verify mkToken db email pw =
          .error { status_code := 401, detail := "Incorrect email or password" })) := by
  constructor
  · intro h
    have hn : db.users.find? (fun v => decide (v.email = email)) = none := by
      rw [List.find?_eq_none]
      intro v hv
      simpa using h v hv
    unfold login
    rw [hn]
  · intro u hu
    constructor
    · intro hv
      unfold login
      rw [hu]
      simp [hv]
    · intro hv
      unfold login
      rw [hu]
      simp [hv]

/-- Witness for C3: on the sample database, logging in as demoUser with the
correct password succeeds with the full response. -/
theorem login_auth_spec_witness :
    login demoVerify demoToken demoDB (some "alice@example.com") (some "h1") =
      .ok { access_token := demoToken (some "alice@example.com")
            token_type := "bearer", user := demoUser } :=
  ((login_auth_spec demoVerify demoToken demoDB (some "alice@example.com")
      (some "h1")).2 demoUser (by rfl)).1 (by rfl)

/-- C4: each of POST /users, POST /drivers and POST /passengers answers 400
and leaves the store unchanged when a stored user already carries the email
supplied in the request body. -/
theorem duplicate_email_rejected (hashFn : String → String) (db : DB)
    (fid1 fid2 fid3 fid4 fid5 : String) (now : Nat) (udata : UserData)
    (ddata : DriverData) (pdata : PassengerData) :
    ((∃ u ∈ db.users, u.email = udata.email) →
      create_user hashFn db fid1 now udata =
        (.error { status_code := 400
                  detail := "User with this email already exists" }, db)) ∧
    ((∃ u ∈ db.users, u.email = ddata.user.email) →
      create_driver hashFn db fid2 fid3 now ddata =
        (.error { status_code := 400
                  detail := "User with this email already exists" }, db)) ∧
    ((∃ u ∈ db.users, u.email = pdata.user.email) →
      create_passenger hashFn db fid4 fid5 now pdata =
        (.error { status_code := 400
                  detail := "User with this email already exists" }, db)) := by
  refine ⟨?_, ?_, ?_⟩
  · rintro ⟨u, hu, he⟩
    have hne := find?_ne_none_of_mem (fun v => decide (v.email = udata.email))
      db.users u hu (by simp [he])
    obtain ⟨v, hv⟩ := Option.ne_none_iff_exists'.mp hne
    unfold create_user
    rw [hv]
  · rintro ⟨u, hu, he⟩
    have hne := find?_ne_none_of_mem
      (fun v => decide (v.email = ddata.user.email)) db.users u hu
      (by simp [he])
    obtain ⟨v, hv⟩ := Option.ne_none_iff_exists'.mp hne
    unfold create_driver
    rw [hv]
  · rintro ⟨u, hu, he⟩
    have hne := find?_ne_none_of_mem
      (fun v => decide (v.email = pdata.user.email)) db.users u hu
      (by simp [he])
    obtain ⟨v, hv⟩ := Option.ne_none_iff_exists'.mp hne
    unfold create_passenger
    rw [hv]

/-- Witness for C4: on the sample database, re-using demoUser's email in each
of the three creation bodies yields the 400 with the store unchanged. -/
theorem duplicate_email_rejected_witness :
    create_user demoHash demoDB "x1" 7 demoUData =
      (.error { status_code := 400
                detail := "User with this email already exists" }, demoDB) ∧
    create_driver demoHash demoDB "x2" "x3" 7 demoDData =
      (.error { status_code := 400
                detail := "User with this email already exists" }, demoDB) ∧
    create_passenger demoHash demoDB "x4" "x5" 7 demoPData =
      (.error { status_code := 400
                detail := "User with this email already exists" }, demoDB) := by
  have h := duplicate_email_rejected demoHash demoDB "x1" "x2" "x3" "x4" "x5" 7
    demoUData demoDData demoPData
  exact ⟨h.1 ⟨demoUser, by simp [demoDB], by rfl⟩,
         h.2.1 ⟨demoUser, by simp [demoDB], by rfl⟩,
         h.2.2 ⟨demoUser, by simp [demoDB], by rfl⟩⟩

/-- C9: the three creation endpoints ignore any password supplied in the
request body (the handler result is invariant under changing it) and every
user document they insert carries password_hash = hashFn "password", the
hash of the fixed literal default password. -/
theorem default_password_hash_spec (hashFn : String → String) (db : DB)
    (fid1 fid2 fid3 fid4 fid5 : String) (now : Nat) (udata : UserData)
    (ddata : DriverData) (pdata : PassengerData) (p : Option String) :
    (create_user hashFn db fid1 now { udata with password := p } =
      create_user hashFn db fid1 now udata) ∧
    (∀ u db2, create_user hashFn db fid1 now udata = (.ok u, db2) →
      u.password_hash = hashFn "password" ∧ db2.users = db.users ++ [u]) ∧
    (create_driver hashFn db fid2 fid3 now
        { ddata with user := { ddata.user with password := p } } =
      create_driver hashFn db fid2 fid3 now ddata) ∧
    (∀ d db2, create_driver hashFn db fid2 fid3 now ddata = (.ok d, db2) →
      ∃ u, db2.users = db.users ++ [u] ∧
        u.password_hash = hashFn "password") ∧
    (create_passenger hashFn db fid4 fid5 now
        { pdata with user := { pdata.user with password := p } } =
      create_passenger hashFn db fid4 fid5 now pdata) ∧
    (∀ pr db2, create_passenger hashFn db fid4 fid5 now pdata = (.ok pr, db2) →
      ∃ u, db2.users = db.users ++ [u] ∧
        u.password_hash = hashFn "password") := by
  refine ⟨rfl, ?_, rfl, ?_, rfl, ?_⟩
  · intro u db2 h
    unfold create_user at h
    cases hf : db.users.find? (fun v => decide (v.email = udata.email)) with
    | some w =>
      rw [hf] at h
      simp at h
    | none =>
      rw [hf] at h
      simp only [Prod.mk.injEq, Except.ok.injEq] at h
      obtain ⟨hu, hdb⟩ := h
      subst hu
      subst hdb
      exact ⟨rfl, rfl⟩
  · intro d db2 h
    unfold create_driver at h
    cases hf : db.users.find? (fun v => decide (v.email = ddata.user.email)) with
    | some w =>
      rw [hf] at h
      simp at h
    | none =>
      rw [hf] at h
      simp only [Prod.mk.injEq, Except.ok.injEq] at h
      obtain ⟨hd, hdb⟩ := h
      subst hdb
      exact ⟨_, rfl, rfl⟩
  · intro pr db2 h
    unfold create_passenger at h
    cases hf : db.users.find? (fun v => decide (v.email = pdata.user.email)) with
    | some w =>
      rw [hf] at h
      simp at h
    | none =>
      rw [hf] at h
      simp only [Prod.mk.injEq, Except.ok.injEq] at h
      obtain ⟨hp, hdb⟩ := h
      subst hdb
      exact ⟨_, rfl, rfl⟩

/-- Witness for C9: creating a user with a fresh email on the sample database
stores the fixed default hash, not a hash of the supplied password. -/
theorem default_password_hash_witness :
    demoCreatedUser.password_hash = demoHash "password" ∧
    (create_user demoHash demoDB "u9" 7 demoUDataFresh).2.users =
      demoDB.users ++ [demoCreatedUser] :=
  (default_password_hash_spec demoHash demoDB "u9" "x2" "x3" "x4" "x5" 7
    demoUDataFresh demoDDataFresh demoPDataFresh none).2.1 demoCreatedUser
    (create_user demoHash demoDB "u9" 7 demoUDataFresh).2 (by rfl)

/-- C10: a successful login response carries the stored user document itself
in its user field (password hash included), and a successful POST /users
returns the inserted user document whole, its password hash included. -/
theorem raw_user_document_in_responses (verify : Option String → String → Bool)
    (mkToken : Option String → String) (hashFn : String → String) (db : DB)
    (email pw : Option String) (fid : String) (now : Nat) (udata : UserData) :
    (∀ resp, login verify mkToken db email pw = .ok resp →
      ∃ u ∈ db.users, resp.user = u ∧
        resp.user.password_hash = u.password_hash) ∧
    (∀ u db2, create_user hashFn db fid now udata = (.ok u, db2) →
      u ∈ db2.users ∧ u.password_hash = hashFn "password") := by
  constructor
  · intro resp h
    cases hf : db.users.find? (fun v => decide (v.email = email)) with
    | none =>
      have heq : login verify mkToken db email pw =
          .error { status_code := 401, detail := "Incorrect email or password" } := by
        unfold login
        rw [hf]
      rw [heq] at h
      simp at h
    | some w =>
      cases hv : verify pw w.password_hash with
      | true =>
        have heq : login verify mkToken db email pw =
            .ok { access_token := mkToken w.email, token_type := "bearer"
                  user := w } := by
          unfold login
          rw [hf]
          simp [hv]
        rw [heq] at h
        simp only [Except.ok.injEq] at h
        subst h
        exact ⟨w, List.mem_of_find?_eq_some hf, rfl, rfl⟩
      | false =>
        have heq : login verify mkToken db email pw =
            .error { status_code := 401, detail := "Incorrect email or password" } := by
          unfold login
          rw [hf]
          simp [hv]
        rw [heq] at h
        simp at h
  · intro u db2 h
    unfold create_user at h
    cases hf : db.users.find? (fun v => decide (v.email = udata.email)) with
    | some w =>
      rw [hf] at h
      simp at h
    | none =>
      rw [hf] at h
      simp only [Prod.mk.injEq, Except.ok.injEq] at h
      obtain ⟨hu, hdb⟩ := h
      subst hu
      subst hdb
      exact ⟨by simp, rfl⟩

/-- Witness for C10: the successful sample login returns demoUser itself,
password hash included. -/
theorem raw_user_document_witness :
    ∃ u ∈ demoDB.users,
      (LoginResponse.mk (demoToken (some "alice@example.com")) "bearer"
        demoUser).user = u ∧
      (LoginResponse.mk (demoToken (some "alice@example.com")) "bearer"
        demoUser).user.password_hash = u.password_hash :=
  (raw_user_document_in_responses demoVerify demoToken demoHash demoDB
    (some "alice@example.com") (some "h1") "u9" 7 demoUDataFresh).1
    (LoginResponse.mk (demoToken (some "alice@example.com")) "bearer" demoUser)
    (by rfl)

/-- C2: whenever GET /rides/assigned answers successfully, the caller owns a
driver profile in the store and every returned ride carries that profile's id
as driver_id and a status that is assigned or in_progress. -/
theorem assigned_rides_own_and_active (db : DB) (current_user : User)
    (l : List RideResponse)
    (h : get_assigned_rides db current_user = .ok l) :
    ∃ drv ∈ db.drivers, drv.user_id = current_user.id ∧
      ∀ r ∈ l, r.driver_id = some drv.id ∧
        (r.status = RideStatus.assigned ∨ r.status = RideStatus.in_progress) := by
  cases hf : db.drivers.find? (fun d => decide (d.user_id = current_user.id)) with
  | none =>
    have heq : get_assigned_rides db current_user =
        .error { status_code := 404, detail := "Driver profile not found" } := by
      unfold get_assigned_rides
      rw [hf]
    rw [heq] at h
    simp at h
  | some drv =>
    have heq : get_assigned_rides db current_user =
        .ok ((db.rides.filter (fun r =>
          decide (r.driver_id = some drv.id) &&
          (decide (r.status = RideStatus.assigned) ||
           decide (r.status = RideStatus.in_progress)))).map
            (mkAssignedRideResponse db)) := by
      unfold get_assigned_rides
      rw [hf]
    rw [heq] at h
    simp only [Except.ok.injEq] at h
    subst h
    refine ⟨drv, List.mem_of_find?_eq_some hf, ?_, ?_⟩
    · have := List.find?_some hf
      simpa using this
    · intro r hr
      obtain ⟨r0, hr0, rfl⟩ := List.mem_map.mp hr
      have hp := (List.mem_filter.mp hr0).2
      simp only [Bool.and_eq_true, Bool.or_eq_true, decide_eq_true_eq] at hp
      exact ⟨hp.1, hp.2⟩

/-- Witness for C2: on the sample database, the driver behind demoDriverUser
gets exactly the assigned demo ride, carrying their own driver id and an
active status. -/
theorem assigned_rides_witness :
    ∃ drv ∈ demoDB.drivers, drv.user_id = demoDriverUser.id ∧
      ∀ r ∈ demoAssignedList, r.driver_id = some drv.id ∧
        (r.status = RideStatus.assigned ∨ r.status = RideStatus.in_progress) :=
  assigned_rides_own_and_active demoDB demoDriverUser demoAssignedList (by rfl)

/-- C7: the hydrating listings tolerate dangling references: GET /fuel-entries
always returns the success body, rendering "Unknown" for the name, make and
plate of an entry whose driver document is missing, and GET /rides/assigned
still succeeds when a ride's passenger document is missing, rendering a null
passenger. -/
theorem dangling_references_tolerated (db : DB) (current_user : User)
    (drv : Driver)
    (hdrv : db.drivers.find? (fun d => decide (d.user_id = current_user.id)) =
      some drv) :
    ((get_fuel_entries db).status = "success" ∧
      ∀ fd ∈ (get_fuel_entries db).fuel_entries,
        (∀ d ∈ db.drivers, d.id ≠ fd.driver_id) →
          fd.driver_name = some "Unknown" ∧
          fd.vehicle_make = some "Unknown" ∧
          fd.license_plate = some "Unknown") ∧
    ∃ l, get_assigned_rides db current_user = .ok l ∧
      ∀ r ∈ l, (∀ p ∈ db.passengers, some p.id ≠ r.passenger_id) →
        r.passenger = none := by
  refine ⟨⟨rfl, ?_⟩, ?_⟩
  · intro fd hfd hnone
    obtain ⟨e, he, rfl⟩ := List.mem_map.mp hfd
    have hf : db.drivers.find? (fun d => decide (d.id = e.driver_id)) = none := by
      rw [List.find?_eq_none]
      intro d hd
      simp only [decide_eq_true_eq]
      exact hnone d hd
    refine ⟨?_, ?_, ?_⟩ <;> simp [mkFuelData, hf]
  · have heq : get_assigned_rides db current_user =
        .ok ((db.rides.filter (fun r =>
          decide (r.driver_id = some drv.id) &&
          (decide (r.status = RideStatus.assigned) ||
           decide (r.status = RideStatus.in_progress)))).map
            (mkAssignedRideResponse db)) := by
      unfold get_assigned_rides
      rw [hdrv]
    refine ⟨_, heq, ?_⟩
    intro r hr hnone
    obtain ⟨r0, hr0, rfl⟩ := List.mem_map.mp hr
    have hp : db.passengers.find?
        (fun p => decide (some p.id = r0.passenger_id)) = none := by
      rw [List.find?_eq_none]
      intro p hpm
      simp only [decide_eq_true_eq]
      exact hnone p hpm
    simp [mkAssignedRideResponse, hp]

/-- Witness for C7: on the sample database the dangling fuel-entry driver is
rendered as "Unknown" in a success body, and the assigned ride with a
dangling passenger reference is returned with a null passenger. -/
theorem dangling_references_witness :
    (get_fuel_entries demoDB).status = "success" ∧
    (mkFuelData demoDB demoFuel).driver_name = some "Unknown" ∧
    (mkFuelData demoDB demoFuel).vehicle_make = some "Unknown" ∧
    (mkFuelData demoDB demoFuel).license_plate = some "Unknown" ∧
    (mkAssignedRideResponse demoDB demoRideAssigned).passenger = none := by
  have h := dangling_references_tolerated demoDB demoDriverUser demoDriver
    (by rfl)
  have hfd : mkFuelData demoDB demoFuel ∈ (get_fuel_entries demoDB).fuel_entries := by
    simp [get_fuel_entries, demoDB]
  have hfu := h.1.2 (mkFuelData demoDB demoFuel) hfd (by decide)
  obtain ⟨l, heq, hall⟩ := h.2
  have hl : l = demoAssignedList := by
    have h2 : Except.ok (ε := HTTPError) l = .ok demoAssignedList :=
      heq.symm.trans (by rfl)
    simpa using h2
  subst hl
  have hrm : mkAssignedRideResponse demoDB demoRideAssigned ∈ demoAssignedList := by
    simp [demoAssignedList]
  have hrp := hall (mkAssignedRideResponse demoDB demoRideAssigned) hrm
    (by intro p hp; simp [demoDB] at hp)
  exact ⟨h.1.1, hfu.1, hfu.2.1, hfu.2.2, hrp⟩

/-- C5: when a required field of the POST /vehicles body is absent, the
handler answers 400 with a detail naming the (first) failing required field
and stores nothing. -/
theorem missing_vehicle_field_400 (db : DB) (fid : String) (now : Nat)
    (d : VehicleData) (h : ∃ f ∈ requiredFields, vdField d f = none) :
    ∃ f, firstMissingField d = some f ∧ f ∈ requiredFields ∧
      optTruthy (vdField d f) = false ∧
      create_vehicle db fid now d =
        (.error { status_code := 400
                  detail := "Missing required field: " ++ f }, db) := by
  obtain ⟨f0, hf0, habs⟩ := h
  have hne : firstMissingField d ≠ none := by
    unfold firstMissingField
    exact find?_ne_none_of_mem _ _ f0 hf0 (by simp [habs, optTruthy])
  obtain ⟨f, hf⟩ := Option.ne_none_iff_exists'.mp hne
  have hf2 : requiredFields.find? (fun g => !(optTruthy (vdField d g))) = some f := hf
  refine ⟨f, hf, List.mem_of_find?_eq_some hf2, ?_, ?_⟩
  · have := List.find?_some hf2
    simpa using this
  · unfold create_vehicle
    rw [hf]

/-- Witness for C5: a body lacking the license plate draws the 400 naming
license_plate and leaves the sample store unchanged. -/
theorem missing_vehicle_field_witness :
    ∃ f, firstMissingField demoVDataMissing = some f ∧ f ∈ requiredFields ∧
      optTruthy (vdField demoVDataMissing f) = false ∧
      create_vehicle demoDB "v1" 9 demoVDataMissing =
        (.error { status_code := 400
                  detail := "Missing required field: " ++ f }, demoDB) :=
  missing_vehicle_field_400 demoDB "v1" 9 demoVDataMissing
    ⟨"license_plate", by simp [requiredFields], by rfl⟩

/-- C6: with all required fields present and a string expiry, POST /vehicles
answers 400 when the string does not parse as a DD-MM-YYYY date, and any
vehicle it creates stores exactly the parsed date as its license expiry. -/
theorem license_expiry_format_spec (db : DB) (fid : String) (now : Nat)
    (d : VehicleData) (s : String)
    (hmiss : firstMissingField d = none)
    (hexp : d.license_expiry = some (.str s)) :
    (strptimeDMY s = none →
      create_vehicle db fid now d =
        (.error { status_code := 400
                  detail := "license_expiry must be in DD-MM-YYYY format" },
         db)) ∧
    (∀ dt, strptimeDMY s = some dt →
      ∀ v db2, create_vehicle db fid now d = (.ok v, db2) →
        v.license_expiry = .date dt ∧
        db2.vehicles = db.vehicles ++ [v]) := by
  have hall : ∀ f ∈ requiredFields, optTruthy (vdField d f) = true := by
    intro f hf
    have hmiss2 :
        requiredFields.find? (fun g => !(optTruthy (vdField d g))) = none := hmiss
    have := List.find?_eq_none.mp hmiss2 f hf
    simpa using this
  obtain ⟨mk, hmk⟩ := optTruthy_isSome (hall "vehicle_make" (by simp [requiredFields]))
  obtain ⟨md, hmd⟩ := optTruthy_isSome (hall "vehicle_model" (by simp [requiredFields]))
  obtain ⟨vy, hvy⟩ := optTruthy_isSome (hall "vehicle_year" (by simp [requiredFields]))
  obtain ⟨lp, hlp⟩ := optTruthy_isSome (hall "license_plate" (by simp [requiredFields]))
  obtain ⟨vc, hvc⟩ := optTruthy_isSome (hall "vehicle_color" (by simp [requiredFields]))
  obtain ⟨ln, hln⟩ := optTruthy_isSome (hall "license_number" (by simp [requiredFields]))
  have hmk2 : d.vehicle_make = some mk := hmk
  have hmd2 : d.vehicle_model = some md := hmd
  have hvy2 : d.vehicle_year = some vy := hvy
  have hlp2 : d.license_plate = some lp := hlp
  have hvc2 : d.vehicle_color = some vc := hvc
  have hln2 : d.license_number = some ln := hln
  constructor
  · intro hn
    unfold create_vehicle
    simp only [hmiss, hmk2, hmd2, hvy2, hlp2, hvc2, hln2, hexp, hn]
  · intro dt hdt v db2 hv
    unfold create_vehicle at hv
    simp only [hmiss, hmk2, hmd2, hvy2, hlp2, hvc2, hln2, hexp, hdt] at hv
    cases hpi : pyInt vy with
    | none =>
      rw [hpi] at hv
      simp at hv
    | some yr =>
      rw [hpi] at hv
      simp only [Prod.mk.injEq, Except.ok.injEq] at hv
      obtain ⟨h1, h2⟩ := hv
      subst h1
      subst h2
      exact ⟨rfl, rfl⟩

/-- Witness for C6: the malformed expiry "2024-03-05" draws the format 400,
while "05-03-2024" creates a vehicle storing the 5 March 2024 date. -/
theorem license_expiry_format_witness :
    create_vehicle demoDB "v1" 9 demoVDataBadExpiry =
      (.error { status_code := 400
                detail := "license_expiry must be in DD-MM-YYYY format" },
       demoDB) ∧
    demoVehicle.license_expiry = .date { day := 5, month := 3, year := 2024 } ∧
    (create_vehicle demoDB "v1" 9 demoVData).2.vehicles =
      demoDB.vehicles ++ [demoVehicle] := by
  have h1 := (license_expiry_format_spec demoDB "v1" 9 demoVDataBadExpiry
    "2024-03-05" (by rfl) (by rfl)).1 (by rfl)
  have h2 := (license_expiry_format_spec demoDB "v1" 9 demoVData
    "05-03-2024" (by rfl) (by rfl)).2 { day := 5, month := 3, year := 2024 }
    (by rfl) demoVehicle (create_vehicle demoDB "v1" 9 demoVData).2 (by rfl)
  exact ⟨h1, h2.1, h2.2⟩

/-- C8: every one of the eight /debug/* endpoints converts any exception into
a normal response body (delivered with HTTP status 200) carrying status
"error" and the exception message, and delivers the success body otherwise;
no HTTP error is ever propagated since the handlers are total functions into
plain bodies. -/
theorem debug_endpoints_swallow_exceptions (m : String) (db : DB)
    (allDocs : List User × List Driver × List Passenger × List Vehicle)
    (allUsers : List User) (allRides : List Ride) :
    debug_data (.error m) =
      { status := "error", message := some m, data := none } ∧
    debug_users (.error m) =
      { status := "error", message := some m, users := none } ∧
    debug_users_simple (.error m) =
      { status := "error", message := some m, users := none } ∧
    debug_drivers (.error m) =
      { status := "error", message := some m, drivers := none } ∧
    debug_vehicles (.error m) =
      { status := "error", message := some m, vehicles := none } ∧
    debug_rides (.error m) =
      { status := "error", message := some m, rides := none } ∧
    debug_fuel_entries (.error m) =
      { status := "error", message := some m, fuel_entries := none } ∧
    debug_get_rides_with_details (.error m) =
      { status := "error", message := some m, rides := [], total := none } ∧
    (debug_data (.ok allDocs)).status = "success" ∧
    (debug_users (.ok allUsers)).status = "success" ∧
    (debug_users_simple (.ok allUsers)).status = "success" ∧
    (debug_drivers (.ok db)).status = "success" ∧
    (debug_vehicles (.ok db)).status = "success" ∧
    (debug_rides (.ok allRides)).status = "success" ∧
    (debug_fuel_entries (.ok db)).status = "success" ∧
    (debug_get_rides_with_details (.ok db)).status = "success" := by
  obtain ⟨us, ds, ps, vs⟩ := allDocs
  exact ⟨rfl, rfl, rfl, rfl, rfl, rfl, rfl, rfl, rfl, rfl, rfl, rfl, rfl, rfl,
         rfl, rfl⟩

end RecTransport
